import Mathlib

/-!
Verification development for the valheim-odin server orchestrator
(src/odin.py).  The script is embedded shallowly: the filesystem is a
set of paths (the flat list of paths that exist), external effects are
recorded as events, and each CLI-level operation (`create`, `start`,
`prerun`/bootstrap, `setup`) becomes a pure function from a filesystem
state to a result record holding the final state, the event trace and
the termination outcome.
-/

set_option maxRecDepth 10000

namespace Odin

/-- Paths are segment lists relative to the program root; odin_path
(src lines 37-41) anchors every path at the directory containing the
program, so the root is a fixed abstract prefix shared by all paths. -/
abbrev Path := List String

/-- odin_path from the source: joins segments under the program root.
In the embedding a path simply is its segment list. -/
def odin_path (segs : List String) : Path := segs

/-- Rendering of an absolute path as the string interpolated into
command lines; the program root is an abstract fixed name. -/
def rootStr : String := "odin-root"

/-- Python str.join, written sep.join(args) in the source (line 200). -/
def pyJoin (sep : String) : List String → String
  | [] => ""
  | [s] => s
  | s :: rest => s ++ sep ++ pyJoin sep rest

def pathStr (p : Path) : String := pyJoin "/" (rootStr :: p)

/-- The filesystem: the flat collection of paths that currently exist. -/
structure FS where
  paths : List Path
deriving DecidableEq

/-- os.path.exists -/
def os_path_exists (fs : FS) (p : Path) : Bool := fs.paths.contains p

/-- os.mkdir (call sites in the source only run it after an existence
check, and with an existing parent, so failure modes are not modelled) -/
def os_mkdir (fs : FS) (p : Path) : FS := ⟨p :: fs.paths⟩

/-- shutil.rmtree: recursively deletes the path and everything under it. -/
def shutil_rmtree (fs : FS) (p : Path) : FS :=
  ⟨fs.paths.filter (fun q => !(p.isPrefixOf q))⟩

/-- The externally visible effects an invocation can perform, in order. -/
inductive Event where
  | mkdirEv (p : Path)
  | rmtreeEv (p : Path)
  | downloadEv
  | installerCall (cmd : List String)
  | spawn (cmd : String)
deriving DecidableEq

/-- How an operation terminates: falls through normally, calls exit(code),
or lets a Python exception propagate unhandled. -/
inductive Outcome where
  | normal
  | exited (code : Nat)
  | raised
deriving DecidableEq

/-- Result of running one operation. -/
structure Run where
  fs : FS
  events : List Event
  out : Outcome
deriving DecidableEq

-- Paths used by the source (lines 50-54, 93-95, 143-144, 189-191).
def steamcmd_dir : Path := odin_path ["steamcmd"]
def steamcmd_bin : Path := odin_path ["steamcmd", "steamcmd.exe"]
def worlds_dir : Path := odin_path ["worlds"]
def servers_dir : Path := odin_path ["servers"]
def server_dir (name : String) : Path := odin_path ["servers", name]
def server_bin (name : String) : Path :=
  odin_path ["servers", name, "valheim_server.exe"]
def world_dir (name : String) : Path := odin_path ["worlds", name]

/-- subprocess.check_call (Python semantics): raises CalledProcessError
when the spawned process exits nonzero, and returns the (zero) return
code otherwise.  It never returns a nonzero value. -/
def check_call (exitCode : Nat) : Except Unit Nat :=
  if exitCode = 0 then Except.ok exitCode else Except.error ()

/-- The steamcmd command list built at src lines 159-164. -/
def installer_cmd (sdir : Path) : List String :=
  [pathStr steamcmd_bin, "+login", "anonymous",
   "+force_install_dir", pathStr sdir,
   "+app_update", "896660", "validate", "+exit"]

/-- create (src lines 141-180): provisions (update=false) or updates
(update=true) the server directory for name.  installerExit is the exit
status the external installer process would report.  The source invokes
it through subprocess.check_call, so a nonzero status surfaces as an
unhandled exception (Outcome.raised); the subsequent exit_code != 0
test, with its rmtree rollback, is kept verbatim from the source. -/
def create (fs : FS) (installerExit : Nat) (name : String) (update : Bool) : Run :=
  let sdir := server_dir name
  if update && !(os_path_exists fs sdir) then
    { fs := fs, events := [], out := Outcome.exited 1 }
  else if !update && os_path_exists fs sdir then
    { fs := fs, events := [], out := Outcome.exited 1 }
  else
    let fs1 := if !update then os_mkdir fs sdir else fs
    let evs1 := if !update then [Event.mkdirEv sdir] else []
    match check_call installerExit with
    | Except.error _ =>
      { fs := fs1, events := evs1 ++ [Event.installerCall (installer_cmd sdir)],
        out := Outcome.raised }
    | Except.ok exit_code =>
      if exit_code != 0 then
        { fs := shutil_rmtree fs1 sdir,
          events := evs1 ++ [Event.installerCall (installer_cmd sdir),
                             Event.rmtreeEv sdir],
          out := Outcome.normal }
      else
        { fs := fs1, events := evs1 ++ [Event.installerCall (installer_cmd sdir)],
          out := Outcome.normal }

/-- The literal regex text passed at src line 203.  Note the source
passes it as the SECOND argument of re.match, i.e. as the subject
string, with args_str in the pattern position. -/
def portRegexText : String := "(?:-p|--port)\\s(\\d+)"

/-- One pattern character against one subject character: a regex-literal
character matches itself and the wildcard dot matches any character. -/
def charMatch (pc sc : Char) : Bool := pc == '.' || pc == sc

/-- Anchored match of a pattern, character by character, returning the
matched portion of the subject (Python's match object group 0). -/
def matchHere : List Char → List Char → Option (List Char)
  | [], _ => some []
  | _ :: _, [] => none
  | p :: ps, s :: ss =>
    if charMatch p s then (matchHere ps ss).map (fun l => s :: l) else none

/-- Python re.match(pat, s) restricted to patterns free of regex
metacharacters other than the wildcard dot (letters, digits, spaces,
hyphens and underscores are literal; a dot matches any character): such
a pattern matches iff every pattern character matches the corresponding
subject character from position 0 on, and group 0 of the match object
is the matched subject prefix.  Patterns with other metacharacters
(parentheses, quantifiers, backslashes, ...) are outside the modelled
fragment. -/
def re_match (pat s : String) : Option String :=
  (matchHere pat.data s.data).map String.mk

def default_port : String := "2456"

/-- Port derivation from src lines 200-206: join the args, call re.match
with the joined args in the PATTERN position and the regex text as the
subject (the source has the two arguments reversed), then use the whole
match (port[0]) if a match object was produced, else the default. -/
def derived_port (args : List String) : String :=
  let args_str := pyJoin " " args
  let port := re_match args_str portRegexText
  match port with
  | some m => m
  | none => default_port

/-- The single shell command line built at src lines 208-214. -/
def spawn_cmd (name port : String) : String :=
  "cmd /C set SteamAppId=892970 && " ++ pathStr (server_bin name) ++
  " -nographics -batchmode -name " ++ name ++ " -world " ++ name ++
  " -port " ++ port ++ " -password 123456 -savedir " ++
  pathStr (server_dir name)

/-- start (src lines 186-219): args is args[0] (the name) plus the
trailing options.  Only the server directory's existence is checked
(src line 194); server_bin and world_dir are computed but their
existence is never tested.  On success a single detached process is
spawned (Popen with start_new_session=True), fire-and-forget. -/
def start (fs : FS) (name : String) (rest : List String) : Run :=
  let args := name :: rest
  let sdir := server_dir name
  if !(os_path_exists fs sdir) then
    { fs := fs, events := [], out := Outcome.exited 1 }
  else
    { fs := fs,
      events := [Event.spawn (spawn_cmd name (derived_port args))],
      out := Outcome.normal }

/-- setup (src lines 47-82): silently makes the worlds dir if missing,
refuses to run when the steamcmd dir already exists, otherwise creates
it, downloads and extracts steamcmd (abstracted to a download event plus
the extracted binary appearing), and removes the transient zip. -/
def setup (fs : FS) : Run :=
  let fs1 := if !(os_path_exists fs worlds_dir) then os_mkdir fs worlds_dir else fs
  let evs1 := if !(os_path_exists fs worlds_dir) then [Event.mkdirEv worlds_dir] else []
  if os_path_exists fs1 steamcmd_dir then
    { fs := fs1, events := evs1, out := Outcome.exited 1 }
  else
    { fs := os_mkdir (os_mkdir fs1 steamcmd_dir) steamcmd_bin,
      events := evs1 ++ [Event.mkdirEv steamcmd_dir, Event.downloadEv],
      out := Outcome.normal }

/-- The bootstrap half of prerun (src lines 97-107): first-time setup if
steamcmd is absent, then create worlds and servers dirs if missing. -/
def bootstrap (fs : FS) : Run :=
  let step0 : Run :=
    if !(os_path_exists fs steamcmd_dir) then setup fs
    else { fs := fs, events := [], out := Outcome.normal }
  match step0.out with
  | Outcome.exited c =>
    { fs := step0.fs, events := step0.events, out := Outcome.exited c }
  | _ =>
    let fs1 := step0.fs
    let fs2 := if !(os_path_exists fs1 worlds_dir) then os_mkdir fs1 worlds_dir else fs1
    let evs2 := if !(os_path_exists fs1 worlds_dir) then [Event.mkdirEv worlds_dir] else []
    let fs3 := if !(os_path_exists fs2 servers_dir) then os_mkdir fs2 servers_dir else fs2
    let evs3 := if !(os_path_exists fs2 servers_dir) then [Event.mkdirEv servers_dir] else []
    { fs := fs3, events := step0.events ++ evs2 ++ evs3, out := Outcome.normal }

/-- How prerun terminates: returns a Bool to main, or exits. -/
inductive PrerunOut where
  | ret (b : Bool)
  | exited (code : Nat)
deriving DecidableEq

structure PrerunRun where
  fs : FS
  events : List Event
  out : PrerunOut
deriving DecidableEq

def valid_cmds : List String := ["create", "start", "backup", "update", "help"]

/-- prerun (src lines 88-134): unconditionally bootstraps, then
validates the invocation shape; help or no args exit 0, an unknown
command or fewer than 2 args print usage and return False, otherwise
it returns True. -/
def prerun (fs : FS) (args : List String) : PrerunRun :=
  let b := bootstrap fs
  match b.out with
  | Outcome.exited c => { fs := b.fs, events := b.events, out := PrerunOut.exited c }
  | _ =>
    let arg_len := args.length
    if arg_len = 0 then
      { fs := b.fs, events := b.events, out := PrerunOut.exited 0 }
    else if args.headD "" = "help" then
      { fs := b.fs, events := b.events, out := PrerunOut.exited 0 }
    else if !(valid_cmds.contains (args.headD "")) then
      { fs := b.fs, events := b.events, out := PrerunOut.ret false }
    else if arg_len < 2 then
      { fs := b.fs, events := b.events, out := PrerunOut.ret false }
    else
      { fs := b.fs, events := b.events, out := PrerunOut.ret true }

/-- True of the event when it is a recursive deletion. -/
def isRmtree : Event → Bool
  | Event.rmtreeEv _ => true
  | _ => false

/-- Characters that are literal in a Python regular expression and
cover ordinary instance names and flag arguments.  The dot is NOT
among them: it is the regex wildcard. -/
def plainChar (c : Char) : Bool :=
  c.isAlphanum || c == ' ' || c == '-' || c == '_'

def plainStr (s : String) : Bool := s.data.all plainChar

-- Fixed filesystem states used to instantiate the theorems below:
-- a fully bootstrapped install root, the same with server foo
-- provisioned (directory only, no executable inside), and an
-- install root missing the worlds and servers directories.

def fsBase : FS := ⟨[steamcmd_dir, steamcmd_bin, worlds_dir, servers_dir]⟩

def fsFoo : FS :=
  ⟨[steamcmd_dir, steamcmd_bin, worlds_dir, servers_dir, server_dir "foo"]⟩

def fsNoDirs : FS := ⟨[steamcmd_dir, steamcmd_bin]⟩

/-- A bootstrapped root on which the instance named with a single dot
passes start's existence check.  On a real filesystem this needs no
extra entry at all: odin_path normalises servers/. to the servers
directory itself, which bootstrap guarantees, so the check passes for
this name on every bootstrapped root. -/
def fsDot : FS :=
  ⟨[steamcmd_dir, steamcmd_bin, worlds_dir, servers_dir, server_dir "."]⟩

/-- A nonempty string all of whose characters are regex-literal has a
regex-literal head character. -/
theorem plain_head (s : String) (hp : plainStr s = true) (hne : s ≠ "") :
    ∃ c cs, s.data = c :: cs ∧ plainChar c = true := by
  cases hd : s.data with
  | nil => exact absurd (String.ext (hd.trans rfl)) hne
  | cons c cs =>
    refine ⟨c, cs, rfl, ?_⟩
    unfold plainStr at hp
    rw [hd] at hp
    simp only [List.all_cons, Bool.and_eq_true] at hp
    exact hp.1

/-- A regex-literal character is distinct from every character that is
not regex-literal. -/
theorem plain_char_ne (c x : Char) (hc : plainChar c = true) (hx : plainChar x = false) :
    (c == x) = false := by
  cases hbe : c == x with
  | false => rfl
  | true =>
    have hcx : c = x := eq_of_beq hbe
    subst hcx
    rw [hc] at hx
    exact Bool.noConfusion hx

/-- A pattern whose first character is regex-literal cannot match the
regex text, whose first character is an opening parenthesis: the head
character is neither the wildcard dot nor a parenthesis. -/
theorem head_plain_no_match (s : String) (c : Char) (cs : List Char)
    (hdata : s.data = c :: cs) (hc : plainChar c = true) :
    re_match s portRegexText = none := by
  unfold re_match
  rw [hdata]
  have hdot : (c == '.') = false := plain_char_ne c '.' hc (by decide)
  have hpar : (c == '(') = false := plain_char_ne c '(' hc (by decide)
  have hsub : portRegexText.data = '(' :: "?:-p|--port)\\s(\\d+)".data := by decide
  rw [hsub]
  simp [matchHere, charMatch, hdot, hpar]

/-- Joining a nonempty argument list keeps the first argument's
characters at the front. -/
theorem pyJoin_cons_data (sep s : String) (rest : List String) :
    ∃ t, (pyJoin sep (s :: rest)).data = s.data ++ t := by
  cases rest with
  | nil => exact ⟨[], by simp [pyJoin]⟩
  | cons r rs =>
    refine ⟨(sep ++ pyJoin sep (r :: rs)).data, ?_⟩
    simp [pyJoin, String.data_append, List.append_assoc]

/-- With the arguments of re.match reversed as in the source, any
argument vector whose first entry is a nonempty plain string fails to
produce a match, so the derived port is always the default. -/
theorem derived_port_plain (name : String) (rest : List String)
    (hp : plainStr name = true) (hne : name ≠ "") :
    derived_port (name :: rest) = default_port := by
  obtain ⟨c, cs, hd, hc⟩ := plain_head name hp hne
  obtain ⟨t, ht⟩ := pyJoin_cons_data " " name rest
  have hdata : (pyJoin " " (name :: rest)).data = c :: (cs ++ t) := by
    rw [ht, hd]; rfl
  have hm := head_plain_no_match (pyJoin " " (name :: rest)) c (cs ++ t) hdata hc
  simp [derived_port, hm]

/-- The bootstrap half of prerun does nothing when the three required
locations already exist. -/
theorem bootstrap_noop (fs : FS)
    (h1 : os_path_exists fs steamcmd_dir = true)
    (h2 : os_path_exists fs worlds_dir = true)
    (h3 : os_path_exists fs servers_dir = true) :
    bootstrap fs = { fs := fs, events := [], out := Outcome.normal } := by
  simp [bootstrap, h1, h2, h3]

/-- C1: the spec requires that when Create's installer invocation exits
nonzero the freshly created Server Directory is rolled back and no
longer exists.  The code disagrees: check_call raises on the nonzero
status, so create terminates with an unhandled exception and the
directory it created is left in place.  Evaluated at the failing input
(bootstrapped root, name foo, installer exit status 1). -/
theorem create_failure_leaves_server_dir :
    os_path_exists (create fsBase 1 "foo" false).fs (server_dir "foo") = true
    ∧ (create fsBase 1 "foo" false).out = Outcome.raised
    ∧ (create fsBase 1 "foo" false).events
        = [Event.mkdirEv (server_dir "foo"),
           Event.installerCall (installer_cmd (server_dir "foo"))] := by
  decide

/-- C2: the spec requires that trailing arguments -p 4455 yield port
4455.  The code passes the joined argument string as the pattern of
re.match and the regex text as the subject, so the flag never matches
and the port is always the default 2456; the no-flag half of the claim
does hold.  Evaluated at the failing input (provisioned foo, trailing
arguments -p 4455). -/
theorem start_port_flag_ignored :
    derived_port ["foo", "-p", "4455"] = "2456"
    ∧ derived_port ["foo"] = "2456"
    ∧ (start fsFoo "foo" ["-p", "4455"]).events
        = [Event.spawn (spawn_cmd "foo" "2456")] := by
  decide

/-- C3: for every instance whose Server Directory already exists, if
Update's installer invocation exits nonzero the pre-existing directory
is still there afterward: the run raises out of check_call without
touching the filesystem, and in particular never deletes anything. -/
theorem update_failure_preserves_server_dir (fs : FS) (name : String) (exitc : Nat)
    (hex : os_path_exists fs (server_dir name) = true) (hfail : exitc ≠ 0) :
    create fs exitc name true =
      { fs := fs,
        events := [Event.installerCall (installer_cmd (server_dir name))],
        out := Outcome.raised }
    ∧ os_path_exists (create fs exitc name true).fs (server_dir name) = true := by
  have h : create fs exitc name true =
      { fs := fs,
        events := [Event.installerCall (installer_cmd (server_dir name))],
        out := Outcome.raised } := by
    simp [create, hex, check_call, hfail]
  exact ⟨h, by rw [h]; exact hex⟩

theorem update_failure_preserves_server_dir_witness :
    os_path_exists (create fsFoo 1 "foo" true).fs (server_dir "foo") = true :=
  (update_failure_preserves_server_dir fsFoo "foo" 1 (by decide) (by decide)).2

/-- C4 counterexample: the claim says Start requires the server
executable to exist and otherwise terminates fatally without spawning.
In the code only the Server Directory is checked: with servers/foo
present but no valheim_server.exe inside it, start still spawns the
server command line and terminates normally. -/
theorem start_missing_exe_spawns_anyway :
    os_path_exists fsFoo (server_bin "foo") = false
    ∧ (start fsFoo "foo" []).out = Outcome.normal
    ∧ (start fsFoo "foo" []).events = [Event.spawn (spawn_cmd "foo" "2456")] := by
  decide

/-- C4 amended: Start checks only that the Server Directory exists;
when it is absent, start exits with status 1, mutates nothing and
spawns no process.  The server executable's existence is never
tested. -/
theorem start_requires_server_dir (fs : FS) (name : String) (rest : List String)
    (habs : os_path_exists fs (server_dir name) = false) :
    start fs name rest = { fs := fs, events := [], out := Outcome.exited 1 } := by
  simp [start, habs]

theorem start_requires_server_dir_witness :
    start fsBase "foo" [] = { fs := fsBase, events := [], out := Outcome.exited 1 } :=
  start_requires_server_dir fsBase "foo" [] (by decide)

/-- C5 counterexample: the claim says a malformed invocation mutates no
state, but prerun bootstraps before validating: with the worlds and
servers directories missing, the unknown command xyz still creates
both directories. -/
theorem prerun_malformed_mutates_when_unbootstrapped :
    (prerun fsNoDirs ["xyz"]).out = PrerunOut.ret false
    ∧ Event.mkdirEv worlds_dir ∈ (prerun fsNoDirs ["xyz"]).events
    ∧ (prerun fsNoDirs ["xyz"]).fs ≠ fsNoDirs := by
  decide

/-- C5 amended: once the bootstrap invariants hold (steamcmd, worlds
and servers all present), every malformed invocation - an unknown
command, or a known non-help command with fewer than two arguments -
leaves the filesystem untouched, performs no external effect, and
returns False to main. -/
theorem prerun_malformed_no_mutation (fs : FS) (args : List String)
    (h1 : os_path_exists fs steamcmd_dir = true)
    (h2 : os_path_exists fs worlds_dir = true)
    (h3 : os_path_exists fs servers_dir = true)
    (h4 : args ≠ [])
    (h5 : args.headD "" ≠ "help")
    (h6 : valid_cmds.contains (args.headD "") = false ∨ args.length < 2) :
    prerun fs args = { fs := fs, events := [], out := PrerunOut.ret false } := by
  have hb := bootstrap_noop fs h1 h2 h3
  cases args with
  | nil => exact absurd rfl h4
  | cons a as =>
    simp only [List.headD_cons] at h5 h6
    rcases h6 with hc | hlen
    · have hc' : ¬ a ∈ valid_cmds := by simpa using hc
      simp [prerun, hb, h5, hc']
    · have has : as = [] := by
        cases as with
        | nil => rfl
        | cons b bs =>
          exfalso
          simp only [List.length_cons] at hlen
          omega
      subst has
      simp [prerun, hb, h5]

theorem prerun_malformed_no_mutation_witness :
    prerun fsBase ["xyz"] = { fs := fsBase, events := [], out := PrerunOut.ret false } :=
  prerun_malformed_no_mutation fsBase ["xyz"] (by decide) (by decide) (by decide)
    (by decide) (by decide) (Or.inl (by decide))

/-- C6: check_call raises on every nonzero installer exit status and
returns zero otherwise, so the exit_code != 0 branch of create - the
message and the rmtree rollback - is dead for every input: no run of
create ever performs a recursive deletion, and whenever the installer
was actually invoked with a nonzero exit status the run ends in an
unhandled exception with no rollback. -/
theorem create_rollback_branch_dead (fs : FS) (exitc : Nat) (name : String) (upd : Bool) :
    (create fs exitc name upd).events.all (fun e => !(isRmtree e)) = true
    ∧ (exitc ≠ 0 →
        (create fs exitc name upd).events.contains
            (Event.installerCall (installer_cmd (server_dir name))) = true →
        (create fs exitc name upd).out = Outcome.raised) := by
  cases upd <;> cases hex : os_path_exists fs (server_dir name) <;>
    by_cases h0 : exitc = 0 <;>
    simp [create, check_call, hex, h0, isRmtree]

theorem create_rollback_branch_dead_witness :
    (create fsBase 1 "foo" false).events.all (fun e => !(isRmtree e)) = true
    ∧ (create fsBase 1 "foo" false).out = Outcome.raised :=
  ⟨(create_rollback_branch_dead fsBase 1 "foo" false).1,
   (create_rollback_branch_dead fsBase 1 "foo" false).2 (by decide) (by decide)⟩

/-- C7: Create on an instance whose Server Directory already exists
exits with status 1, leaves the filesystem exactly as it was and never
reaches the installer; consequently a Create that succeeded followed by
a second Create of the same name fails the same way, leaving the first
instance's state unchanged. -/
theorem create_conflict_preserves_state (fs : FS) (name : String) (exitc exitc2 : Nat) :
    (os_path_exists fs (server_dir name) = true →
        create fs exitc name false = { fs := fs, events := [], out := Outcome.exited 1 })
    ∧ (os_path_exists fs (server_dir name) = false →
        create (create fs 0 name false).fs exitc2 name false =
          { fs := (create fs 0 name false).fs, events := [],
            out := Outcome.exited 1 }) := by
  constructor
  · intro hex
    simp [create, hex]
  · intro hex
    have h1 : (create fs 0 name false).fs = os_mkdir fs (server_dir name) := by
      simp [create, hex, check_call]
    have h2 : os_path_exists (os_mkdir fs (server_dir name)) (server_dir name) = true := by
      simp [os_path_exists, os_mkdir, List.contains_cons]
    rw [h1]
    simp [create, h2]

theorem create_conflict_preserves_state_witness :
    create fsFoo 1 "foo" false = { fs := fsFoo, events := [], out := Outcome.exited 1 }
    ∧ create (create fsBase 0 "foo" false).fs 1 "foo" false =
        { fs := (create fsBase 0 "foo" false).fs, events := [],
          out := Outcome.exited 1 } :=
  ⟨(create_conflict_preserves_state fsFoo "foo" 1 1).1 (by decide),
   (create_conflict_preserves_state fsBase "foo" 1 1).2 (by decide)⟩

/-- C8: Update on an instance with no Server Directory exits with
status 1 leaving the filesystem exactly as it was: nothing is created
and the installer is never invoked. -/
theorem update_missing_dir_fails (fs : FS) (name : String) (exitc : Nat)
    (habs : os_path_exists fs (server_dir name) = false) :
    create fs exitc name true = { fs := fs, events := [], out := Outcome.exited 1 } := by
  simp [create, habs]

theorem update_missing_dir_fails_witness :
    create fsBase 0 "foo" true = { fs := fsBase, events := [], out := Outcome.exited 1 } :=
  update_missing_dir_fails fsBase "foo" 0 (by decide)

/-- C9 counterexample: the claim quantifies over every provisioned
instance name, but for the name consisting of a single dot - a regex
wildcard once it reaches the reversed re.match call - the pattern
matches the opening parenthesis of the regex text, so the spawned
command line carries -port ( and does not contain -port 2456. -/
theorem start_dot_name_port_paren :
    os_path_exists fsDot (server_dir ".") = true
    ∧ derived_port ["."] = "("
    ∧ (start fsDot "." []).events = [Event.spawn (spawn_cmd "." "(")]
    ∧ ¬ List.IsInfix "-port 2456".data (spawn_cmd "." "(").data := by
  decide

/-- C9 amended: starting a provisioned instance whose name is a
nonempty string of regex-literal characters (ASCII alphanumerics,
space, hyphen, underscore), with trailing arguments likewise
regex-literal and containing no port flag, spawns exactly one detached
process whose command line contains -name name -world name -port 2456
-password 123456 and whose save directory is the resolved Server
Directory.  The regex-literal hypotheses keep the joined argument
string inside re_match's faithful fragment (names or arguments with
other regex metacharacters make the real re.match match something
else, as the dot counterexample shows, or raise re.error). -/
theorem start_spawns_default_port_cmd (fs : FS) (name : String) (rest : List String)
    (hex : os_path_exists fs (server_dir name) = true)
    (hplain : plainStr name = true) (hne : name ≠ "")
    (_hrest : rest.all plainStr = true)
    (_hnoflag : ¬ "-p" ∈ rest ∧ ¬ "--port" ∈ rest) :
    start fs name rest =
      { fs := fs, events := [Event.spawn (spawn_cmd name default_port)],
        out := Outcome.normal }
    ∧ spawn_cmd name default_port =
        ("cmd /C set SteamAppId=892970 && " ++ pathStr (server_bin name) ++
         " -nographics -batchmode ") ++
        ("-name " ++ name ++ " -world " ++ name ++
         " -port 2456 -password 123456") ++
        (" -savedir " ++ pathStr (server_dir name)) := by
  constructor
  · have hport := derived_port_plain name rest hplain hne
    simp [start, hex, hport]
  · simp [spawn_cmd, default_port, String.append_assoc]
    rw [← String.append_assoc " -nographics -batchmode " "-name "]
    rw [← String.append_assoc " -port 2456 -password 123456" " -savedir "]
    simp [String.append_assoc]

theorem start_spawns_default_port_cmd_witness :
    start fsFoo "foo" [] =
      { fs := fsFoo, events := [Event.spawn (spawn_cmd "foo" default_port)],
        out := Outcome.normal } :=
  (start_spawns_default_port_cmd fsFoo "foo" [] (by decide) (by decide) (by decide)
    (by decide) ⟨by decide, by decide⟩).1

/-- C10: when the steamcmd, worlds and servers directories all already
exist, the bootstrap step is a no-op - no filesystem mutation, no
download, normal termination - and running it a second time from the
resulting state changes nothing either. -/
theorem bootstrap_idempotent (fs : FS)
    (h1 : os_path_exists fs steamcmd_dir = true)
    (h2 : os_path_exists fs worlds_dir = true)
    (h3 : os_path_exists fs servers_dir = true) :
    bootstrap fs = { fs := fs, events := [], out := Outcome.normal }
    ∧ bootstrap (bootstrap fs).fs = bootstrap fs := by
  have h := bootstrap_noop fs h1 h2 h3
  exact ⟨h, by rw [h]; exact h⟩

theorem bootstrap_idempotent_witness :
    bootstrap fsBase = { fs := fsBase, events := [], out := Outcome.normal } :=
  (bootstrap_idempotent fsBase (by decide) (by decide) (by decide)).1

end Odin
